import Mathlib

/-!
Shallow embedding of the NovelAgent core components
(novelagent/task_manager.py, novelagent/llm_interface.py,
novelagent/memory.py, novelagent/vector_db.py, novelagent/thought_atom.py)
together with proofs settling the spec claims C1-C10.

Python dict-shaped values are embedded as Lean structures; `task.get "key"`
on possibly-missing keys is embedded as an `Option` field.  External calls
(the LiteLLM / Ollama completion and embedding services, the PostgreSQL
connection) are embedded as explicit arguments: an `Except` value stands for
"the external call either returned a value or raised an exception".
-/

namespace NovelAgent

/-! ## Task manager (task_manager.py)

The Python `TaskManager` keeps `self.tasks : List[Dict]`; the dictionaries
carry free-form keys.  The keys actually consulted by the code are
"id", "status" and "dependencies"; "description" stands for the rest. -/

/-- Task embeds the Python task dict. `task.get "id"` and
`task.get "status"` return `None` when the key is absent, hence `Option`. -/
structure Task where
  id : Option String
  status : Option String
  dependencies : List String
  description : String
deriving DecidableEq, Repr

/-- Embeds `TaskManager.add_task` (task_manager.py lines 29-36):
`self.tasks.append(task)` - an unconditional append, no duplicate check. -/
def add_task (tasks : List Task) (task : Task) : List Task :=
  tasks ++ [task]

/-- Embeds `TaskManager.get_pending_tasks` (task_manager.py lines 117-124):
`[task for task in self.tasks if task.get("status") != "completed"]`. -/
def get_pending_tasks (tasks : List Task) : List Task :=
  tasks.filter (fun task => decide (task.status ≠ some "completed"))

/-- Embeds `TaskManager.get_completed_tasks` (task_manager.py lines 126-133). -/
def get_completed_tasks (tasks : List Task) : List Task :=
  tasks.filter (fun task => decide (task.status = some "completed"))

/-- Embeds `TaskManager.get_task_by_id` (task_manager.py lines 135-148):
first task whose "id" equals `task_id`, else `None`. -/
def get_task_by_id (tasks : List Task) (task_id : String) : Option Task :=
  tasks.find? (fun task => decide (task.id = some task_id))

/-- Claim-side predicate (from the spec's notion of an incomplete
dependency): some dependency of `task` names a task that is not
`completed` (or names no submitted task at all). -/
def has_incomplete_dep (tasks : List Task) (task : Task) : Bool :=
  task.dependencies.any (fun d =>
    match get_task_by_id tasks d with
    | some td => decide (td.status ≠ some "completed")
    | none => true)

/-- Progress embeds the dict returned by `TaskManager.monitor_progress`. -/
structure Progress where
  total : Nat
  completed : Nat
  pending : Nat
  progress_percentage : ℚ
deriving DecidableEq, Repr

/-- Embeds `TaskManager.monitor_progress` (task_manager.py lines 150-166).
`completed / total * 100` is Python float division, embedded over ℚ;
`pending = total - completed` is over ℕ, faithful because the number of
completed tasks never exceeds the number of tasks. -/
def monitor_progress (tasks : List Task) : Progress :=
  let total := tasks.length
  let completed := (get_completed_tasks tasks).length
  let pending := total - completed
  { total := total
    completed := completed
    pending := pending
    progress_percentage := if total > 0 then (completed : ℚ) / (total : ℚ) * 100 else 0 }

/-! ## LLM boundary (llm_interface.py)

`LLMInterface.generate` wraps `litellm.completion` in try/except.  The
external call is embedded as `completion : Except String String`
(`Except.error e` = the call raised exception `e`, `Except.ok s` = it returned
content `s`).  The result type `Except String String` records what the caller
observes: `Except.error` would mean an exception propagates out of `generate`. -/

/-- Embeds `LLMInterface.generate` (llm_interface.py lines 33-59): on success
returns `response.choices[0].message.content`; on any exception it catches,
prints, and returns the plain string `f"Error generating text: e"` -
a normal return, so the caller always observes `Except.ok`. -/
def generate (completion : Except String String) : Except String String :=
  match completion with
  | Except.ok content => Except.ok content
  | Except.error e => Except.ok ("Error generating text: " ++ e)

/-! ## Memory (memory.py) and vector store (vector_db.py) -/

/-- MemoryItem embeds the Python memory-item dict: a "type" key, a "content"
key, and the remaining metadata keys. -/
structure MemoryItem where
  type : String
  content : String
  metadata : List (String × String)
deriving DecidableEq, Repr

/-- VectorRecord embeds one row of the vector table created by
`VectorDB._initialize_table`: `id SERIAL PRIMARY KEY, content TEXT,
embedding VECTOR(dimension), metadata JSONB`.  Float coordinates are
embedded over ℚ. -/
structure VectorRecord where
  id : Nat
  content : String
  embedding : List ℚ
  metadata : List (String × String)
deriving DecidableEq, Repr

/-- VectorDB embeds the mutable state of a `VectorDB` instance plus the
table it is connected to: `connected` is `self.connection is not None`,
`dimension` is `self.dimension`, `next_id` is the next SERIAL id the table
will assign, `records` the rows in insertion (id) order. -/
structure VectorDB where
  connected : Bool
  dimension : Nat
  next_id : Nat
  records : List VectorRecord
deriving DecidableEq, Repr

/-- Embeds `VectorDB.get_embedding` (vector_db.py lines 80-115).  Both the
Ollama branch and the LiteLLM branch have the same shape: try the external
embedding call; on any exception print the error and return
`[0.0] * self.dimension` - the zero vector - as the fallback.
`service` is the outcome of the external call. -/
def get_embedding (db : VectorDB) (service : Except String (List ℚ)) : List ℚ :=
  match service with
  | Except.ok v => v
  | Except.error _ => List.replicate db.dimension 0

/-- Embeds `VectorDB.add` (vector_db.py lines 117-151): returns `False` with
no state change when there is no connection or the item has empty content;
otherwise computes the embedding via `get_embedding`, builds the metadata
dict from every key except "content", INSERTs the row, and returns `True`. -/
def VectorDB.add (db : VectorDB) (item : MemoryItem)
    (service : Except String (List ℚ)) : VectorDB × Bool :=
  if db.connected = false then (db, false)
  else if item.content = "" then (db, false)
  else
    let embedding := get_embedding db service
    let metadata := ("type", item.type) :: item.metadata
    ({ db with
        next_id := db.next_id + 1
        records := db.records ++
          [{ id := db.next_id, content := item.content,
             embedding := embedding, metadata := metadata }] }, true)

/-- Memory embeds the state of a `Memory` instance (memory.py):
`short_term_memory`, the optional `vector_db`, and `max_short_term_items`. -/
structure Memory where
  short_term_memory : List MemoryItem
  vector_db : Option VectorDB
  max_short_term_items : Nat
deriving DecidableEq, Repr

/-- Embeds `Memory.add` (memory.py lines 32-49): append the item to
`short_term_memory`; if the buffer length now exceeds
`max_short_term_items`, `pop(0)` the oldest entry; if `is_important` and a
vector database is configured, also add the item there (`service` is the
outcome of the external embedding call that add would make). -/
def Memory.add (m : Memory) (item : MemoryItem) (is_important : Bool)
    (service : Except String (List ℚ)) : Memory :=
  let stm := m.short_term_memory ++ [item]
  let stm := if stm.length > m.max_short_term_items then stm.drop 1 else stm
  let vdb :=
    match m.vector_db with
    | some db => if is_important then some (VectorDB.add db item service).1 else some db
    | none => none
  { m with short_term_memory := stm, vector_db := vdb }

/-- Runs a sequence of `Memory.add` calls: each element gives the item, its
`is_important` flag, and the outcome of the embedding call for that step. -/
def Memory.addAll (m : Memory) :
    List (MemoryItem × Bool × Except String (List ℚ)) → Memory
  | [] => m
  | x :: xs => (m.add x.1 x.2.1 x.2.2).addAll xs

/-- Embeds `Memory.get_recent` (memory.py lines 51-61), which returns the
Python slice `self.short_term_memory[-n:]`.  For n ≥ 1 this is the last n
elements (all of them when n exceeds the length); for n = 0 the slice
`[-0:]` is `[0:]`, i.e. the whole list. -/
def Memory.get_recent (m : Memory) (n : Nat) : List MemoryItem :=
  if n = 0 then m.short_term_memory
  else m.short_term_memory.drop (m.short_term_memory.length - n)

/-! ## VectorDB.search (vector_db.py lines 153-188)

The search issues `SELECT content, metadata, embedding <=> q AS distance FROM
table ORDER BY distance LIMIT n`, executed by PostgreSQL.  The pgvector
distance operator is embedded as an explicit argument
`d : List ℚ → List ℚ → ℚ`.  The ORDER BY execution itself is external
behavior: SQL specifies only that the returned rows are a permutation of the
scanned rows sorted by ascending distance — the relative order of rows with
equal sort keys is unspecified (the query has no secondary sort key), so it
is embedded as an explicit `engine` argument constrained by exactly that
contract, and `LIMIT n` as `take n`. -/

/-- Row of the SELECT before the LIMIT: a stored record paired with its
computed distance `embedding <=> query_embedding`, in table-scan
(insertion, SERIAL id) order. -/
def searchRows (db : VectorDB) (d : List ℚ → List ℚ → ℚ)
    (query_embedding : List ℚ) : List (VectorRecord × ℚ) :=
  db.records.map (fun r => (r, d query_embedding r.embedding))

/-- Comparison used by ORDER BY distance: ascending computed distance. -/
def rowLE (a b : VectorRecord × ℚ) : Prop := a.2 ≤ b.2

instance : DecidableRel rowLE := fun a b => inferInstanceAs (Decidable (a.2 ≤ b.2))

instance : IsTotal (VectorRecord × ℚ) rowLE := ⟨fun a b => le_total a.2 b.2⟩

instance : IsTrans (VectorRecord × ℚ) rowLE := ⟨fun _ _ _ h1 h2 => le_trans h1 h2⟩

/-- Everything SQL guarantees about the engine executing ORDER BY distance:
the output is a permutation of the input rows, sorted by ascending
distance.  Nothing constrains the relative order of equal-distance rows. -/
def order_by_contract
    (engine : List (VectorRecord × ℚ) → List (VectorRecord × ℚ)) : Prop :=
  ∀ rows, List.Perm (engine rows) rows ∧ List.Sorted rowLE (engine rows)

/-- SearchHit embeds one result dict built by `VectorDB.search`: the
"content" key, the metadata keys, and the "distance" key. -/
structure SearchHit where
  content : String
  metadata : List (String × String)
  distance : ℚ
deriving DecidableEq, Repr

/-- Embeds `VectorDB.search` (vector_db.py lines 153-188): `[]` when there is
no connection; otherwise the query embedding is computed via `get_embedding`
(`query_service` is the external call's outcome), the database `engine`
orders the scanned rows by distance, and the limited rows are returned as
result dicts. -/
def VectorDB.search (db : VectorDB) (query_service : Except String (List ℚ))
    (d : List ℚ → List ℚ → ℚ)
    (engine : List (VectorRecord × ℚ) → List (VectorRecord × ℚ)) (n : Nat) :
    List SearchHit :=
  if db.connected = false then []
  else
    ((engine (searchRows db d (get_embedding db query_service))).take n).map
      (fun row => { content := row.1.content, metadata := row.1.metadata, distance := row.2 })

/-! ## Thought atoms (thought_atom.py)

`ThoughtAtom` is an n-ary tree.  The `parent` field is a live back-reference
reconstructed on attach and never serialized; the tree structure itself is
carried by `children`, so the embedding keeps `content`, `level`, `metadata`
and `children`. -/

/-- ThoughtAtom embeds thought_atom.py's `ThoughtAtom` minus the `parent`
back-reference (which `to_dict` never serializes and `add_child` rebuilds). -/
inductive ThoughtAtom : Type where
  | mk (content : String) (level : Nat) (metadata : List (String × String))
       (children : List ThoughtAtom)

/-- TreeDict embeds the nested dict produced by `ThoughtAtom.to_dict`:
keys "content", "level", "metadata", "children". -/
inductive TreeDict : Type where
  | mk (content : String) (level : Nat) (metadata : List (String × String))
       (children : List TreeDict)

/-- Accessor for the `content` attribute. -/
def ThoughtAtom.content : ThoughtAtom → String
  | .mk c _ _ _ => c

/-- Accessor for the `level` attribute. -/
def ThoughtAtom.level : ThoughtAtom → Nat
  | .mk _ l _ _ => l

/-- Accessor for the `metadata` attribute. -/
def ThoughtAtom.metadata : ThoughtAtom → List (String × String)
  | .mk _ _ m _ => m

/-- Accessor for the `children` attribute. -/
def ThoughtAtom.children : ThoughtAtom → List ThoughtAtom
  | .mk _ _ _ cs => cs

/-- Embeds the assignment `child.level = self.level + 1` inside `add_child`:
it overwrites the node's own level only, never the levels inside its
subtree. -/
def ThoughtAtom.set_level : ThoughtAtom → Nat → ThoughtAtom
  | .mk c _ m cs, l => .mk c l m cs

/-- Embeds `ThoughtAtom.add_child` (thought_atom.py lines 37-46):
`self.children.append(child); child.parent = self;
child.level = self.level + 1`. -/
def ThoughtAtom.add_child : ThoughtAtom → ThoughtAtom → ThoughtAtom
  | .mk c l m cs, child => .mk c l m (cs ++ [child.set_level (l + 1)])

/-- Embeds `ThoughtAtom.to_dict` (thought_atom.py lines 76-88): the nested
dict of content, level, metadata, and recursively serialized children. -/
def ThoughtAtom.to_dict : ThoughtAtom → TreeDict
  | .mk c l m cs => TreeDict.mk c l m (cs.attach.map (fun x => x.1.to_dict))
decreasing_by
  have := List.sizeOf_lt_of_mem x.2
  simp at *
  omega

/-- Embeds `ThoughtAtom.from_dict` (thought_atom.py lines 90-111): build the
atom with the stored content, level and metadata and no children, then for
each serialized child, recursively deserialize it and `add_child` it. -/
def ThoughtAtom.from_dict : TreeDict → ThoughtAtom
  | .mk c l m cs =>
      cs.attach.foldl (fun atom x => atom.add_child (ThoughtAtom.from_dict x.1))
        (ThoughtAtom.mk c l m [])
decreasing_by
  have := List.sizeOf_lt_of_mem x.2
  simp at *
  omega

/-- Claim-side well-formedness (the spec's ContextNode invariant): every
child's stored level is its parent's level plus one, recursively. -/
def ThoughtAtom.wf_levels : ThoughtAtom → Bool
  | .mk _ l _ cs => cs.attach.all (fun x => (x.1.level == l + 1) && x.1.wf_levels)
decreasing_by
  have := List.sizeOf_lt_of_mem x.2
  simp at *
  omega

/-- The prompt `ThoughtAtom.summarize` builds around the concatenated child
summaries (thought_atom.py lines 65-71). -/
def summarizePrompt (combined : String) : String :=
  "\n        Summarize the following content into a coherent and comprehensive summary:\n        \n        "
    ++ combined
    ++ "\n        \n        Your summary should capture all key points while being more concise than the original.\n        "

/-- Embeds `ThoughtAtom.summarize` (thought_atom.py lines 48-74),
instrumented with the number of `llm_interface.generate` calls it makes
(second component): a leaf returns its content with zero calls; otherwise
every child is summarized recursively, the summaries are joined with
a blank line, and one generate call is made on the prompt. `gen` is the
generation service. -/
def ThoughtAtom.summarize (gen : String → String) : ThoughtAtom → String × Nat
  | .mk c _ _ [] => (c, 0)
  | .mk _ _ _ (c0 :: cs) =>
      let results := (c0 :: cs).attach.map (fun x => x.1.summarize gen)
      let combined := String.intercalate "\n\n" (results.map Prod.fst)
      (gen (summarizePrompt combined), (results.map Prod.snd).sum + 1)
decreasing_by
  have := List.sizeOf_lt_of_mem x.2
  simp at *
  omega

/-! ## Concrete fixtures used by counterexamples and witnesses -/

/-- A submitted task with no dependencies, not completed. -/
def taskA : Task :=
  { id := some "A", status := none, dependencies := [], description := "write outline" }

/-- A submitted task depending on taskA, not completed. -/
def taskB : Task :=
  { id := some "B", status := none, dependencies := ["A"], description := "write chapter" }

/-- A connected vector store of dimension 3 with no records yet. -/
def vdb0 : VectorDB :=
  { connected := true, dimension := 3, next_id := 1, records := [] }

/-- A memory item with non-empty content. -/
def item0 : MemoryItem := { type := "note", content := "hello", metadata := [] }

/-- Fixture memory item 1. -/
def item1 : MemoryItem := { type := "event", content := "one", metadata := [] }

/-- Fixture memory item 2. -/
def item2 : MemoryItem := { type := "event", content := "two", metadata := [] }

/-- Fixture memory item 3. -/
def item3 : MemoryItem := { type := "event", content := "three", metadata := [] }

/-- A memory whose buffer holds item1, item2, item3 (capacity 3). -/
def mem3 : Memory :=
  { short_term_memory := [item1, item2, item3], vector_db := none,
    max_short_term_items := 3 }

/-! ## Claim C1 -/

/-- C1 counterexample: the scheduler's next-runnable selection is
`get_pending_tasks`, and it does return a task with an incomplete
dependency: with taskA not completed and taskB depending on "A", taskB is
among the returned tasks. -/
theorem c1_counterexample :
    taskB ∈ get_pending_tasks [taskA, taskB] ∧
    has_incomplete_dep [taskA, taskB] taskB = true := by
  decide

/-- C1 amended: `get_pending_tasks` returns exactly the tasks whose status
is not "completed", in insertion (submission) order — so the
earliest-submitted non-completed task comes first — but it checks no
dependencies and, being read-only, returns the same task on every call
until its status is set to "completed". -/
theorem c1_pending_tasks (tasks : List Task) :
    List.Sublist (get_pending_tasks tasks) tasks ∧
    (∀ t ∈ get_pending_tasks tasks, t.status ≠ some "completed") ∧
    (∀ t ∈ tasks, t.status ≠ some "completed" → t ∈ get_pending_tasks tasks) := by
  refine ⟨List.filter_sublist _, fun t ht => ?_, fun t ht h => ?_⟩
  · have := List.of_mem_filter ht
    simpa using this
  · exact List.mem_filter.mpr ⟨ht, by simpa using h⟩

/-- C1 witness: concrete instance of the amended claim — taskA is not
completed and is indeed among the pending tasks. -/
theorem c1_witness :
    taskA ∈ [taskA, taskB] ∧ taskA.status ≠ some "completed" ∧
    taskA ∈ get_pending_tasks [taskA, taskB] :=
  ⟨by decide, by decide,
    (c1_pending_tasks [taskA, taskB]).2.2 taskA (by decide) (by decide)⟩

/-! ## Claim C2 -/

/-- C2 counterexample: when the completion call fails, `generate` returns
manufactured substitute text ("Error generating text: ...") as an ordinary
value; no error reaches the caller. -/
theorem c2_counterexample :
    generate (Except.error "boom") = Except.ok ("Error generating text: " ++ "boom") ∧
    (generate (Except.error "boom")).isOk = true := by
  exact ⟨rfl, rfl⟩

/-- C2 amended: `generate` passes successful completions through unchanged,
but on a failed completion it catches the exception and returns the
placeholder string "Error generating text: " followed by the cause; the
caller always observes an ordinary value, never an error. -/
theorem c2_generate :
    (∀ s, generate (Except.ok s) = Except.ok s) ∧
    (∀ e, generate (Except.error e) = Except.ok ("Error generating text: " ++ e)) ∧
    (∀ r, (generate r).isOk = true) := by
  refine ⟨fun s => rfl, fun e => rfl, fun r => ?_⟩
  cases r <;> rfl

/-! ## Claim C3 -/

/-- C3 counterexample: with the external embedding call failing, the store's
`add` still reports success and persists a record whose embedding is the
zero vector of the configured dimension — store-level zero-vector
substitution instead of an EmbeddingServiceError. -/
theorem c3_counterexample :
    (VectorDB.add vdb0 item0 (Except.error "embedding service down")).2 = true ∧
    ((VectorDB.add vdb0 item0 (Except.error "embedding service down")).1.records.map
        VectorRecord.embedding) = [[0, 0, 0]] := by
  decide

/-- C3 amended: on a connected store and a non-empty content item, a failed
external embedding call never fails the put: `add` substitutes the zero
vector of the configured dimension as the stored embedding and reports
success. -/
theorem c3_add_zero_vector (db : VectorDB) (item : MemoryItem) (e : String)
    (hc : db.connected = true) (hne : item.content ≠ "") :
    (VectorDB.add db item (Except.error e)).2 = true ∧
    (VectorDB.add db item (Except.error e)).1.records =
      db.records ++
        [{ id := db.next_id, content := item.content,
           embedding := List.replicate db.dimension 0,
           metadata := ("type", item.type) :: item.metadata }] := by
  simp [VectorDB.add, get_embedding, hc, hne]

/-- C3 witness: concrete instance of the amended claim on the connected
3-dimensional store. -/
theorem c3_witness :
    vdb0.connected = true ∧ item0.content ≠ "" ∧
    (VectorDB.add vdb0 item0 (Except.error "down")).2 = true :=
  ⟨rfl, by decide, (c3_add_zero_vector vdb0 item0 "down" rfl (by decide)).1⟩

/-! ## Claim C4 -/

/-- Buffer-shape invariant of repeated `Memory.add`: starting from any state
whose buffer respects the capacity, after any sequence of adds the buffer
is the suffix of (old buffer ++ added items) past the capacity overflow —
i.e. the oldest entries were evicted first, one per overflowing add. -/
theorem Memory.addAll_stm (xs : List (MemoryItem × Bool × Except String (List ℚ)))
    (m : Memory) (h : m.short_term_memory.length ≤ m.max_short_term_items) :
    (m.addAll xs).short_term_memory =
      (m.short_term_memory ++ xs.map (fun x => x.1)).drop
        (m.short_term_memory.length + xs.length - m.max_short_term_items) := by
  induction xs generalizing m with
  | nil =>
      simp [Memory.addAll, Nat.sub_eq_zero_of_le h]
  | cons x xs ih =>
      simp only [Memory.addAll, List.map_cons, List.length_cons]
      by_cases hc : m.short_term_memory.length + 1 > m.max_short_term_items
      · have hadd : (m.add x.1 x.2.1 x.2.2).short_term_memory =
            (m.short_term_memory ++ [x.1]).drop 1 := by
          simp only [Memory.add]
          rw [if_pos (by simp; omega)]
        have hmax : (m.add x.1 x.2.1 x.2.2).max_short_term_items =
            m.max_short_term_items := rfl
        have hlen : (m.add x.1 x.2.1 x.2.2).short_term_memory.length ≤
            (m.add x.1 x.2.1 x.2.2).max_short_term_items := by
          rw [hadd, hmax]
          simp
          omega
        rw [ih _ hlen, hadd, hmax]
        have e1 : List.drop 1 (m.short_term_memory ++ [x.1]) ++ xs.map (fun x => x.1) =
            List.drop 1 ((m.short_term_memory ++ [x.1]) ++ xs.map (fun x => x.1)) :=
          (List.drop_append_of_le_length (by simp)).symm
        rw [e1, List.drop_drop]
        congr 1
        · simp only [List.length_drop, List.length_append, List.length_singleton]
          omega
        · simp [List.append_assoc]
      · have hadd : (m.add x.1 x.2.1 x.2.2).short_term_memory =
            m.short_term_memory ++ [x.1] := by
          simp only [Memory.add]
          rw [if_neg (by simp; omega)]
        have hmax : (m.add x.1 x.2.1 x.2.2).max_short_term_items =
            m.max_short_term_items := rfl
        have hlen : (m.add x.1 x.2.1 x.2.2).short_term_memory.length ≤
            (m.add x.1 x.2.1 x.2.2).max_short_term_items := by
          rw [hadd, hmax]
          simp
          omega
        rw [ih _ hlen, hadd, hmax]
        simp only [List.length_append, List.length_singleton, List.append_assoc,
          List.cons_append, List.nil_append]
        congr 1
        omega

/-- C4: starting from an empty Bounded Memory of capacity N, after a
sequence of more than N adds (each with its own important flag and
embedding-service outcome) the buffer holds exactly N items, namely the
last N items added in order — the oldest were evicted first, regardless of
the important flags. -/
theorem c4_bounded_memory (N : Nat)
    (xs : List (MemoryItem × Bool × Except String (List ℚ)))
    (h : N < xs.length) :
    (Memory.addAll ⟨[], none, N⟩ xs).short_term_memory =
      (xs.map (fun x => x.1)).drop (xs.length - N) ∧
    (Memory.addAll ⟨[], none, N⟩ xs).short_term_memory.length = N := by
  have key := Memory.addAll_stm xs ⟨[], none, N⟩ (by simp)
  simp only [List.nil_append, List.length_nil, Nat.zero_add] at key
  refine ⟨key, ?_⟩
  rw [key]
  simp only [List.length_drop, List.length_map]
  omega

/-- C4 witness: capacity 2, three adds with mixed important flags — the
buffer ends as the last two items. -/
theorem c4_witness :
    2 < ([(item1, false, Except.ok ([] : List ℚ)),
          (item2, true, Except.error "down"),
          (item3, false, Except.ok ([] : List ℚ))]).length ∧
    (Memory.addAll ⟨[], none, 2⟩
        [(item1, false, Except.ok ([] : List ℚ)),
         (item2, true, Except.error "down"),
         (item3, false, Except.ok ([] : List ℚ))]).short_term_memory =
      [item2, item3] := by
  refine ⟨by decide, ?_⟩
  have := (c4_bounded_memory 2
    [(item1, false, Except.ok ([] : List ℚ)),
     (item2, true, Except.error "down"),
     (item3, false, Except.ok ([] : List ℚ))] (by decide)).1
  simpa using this

/-! ## Claim C7 -/

/-- Stored record at distance 9 from the fixture query, inserted first
(the spec scenario's distances 0.9, 0.1, 0.5 scaled by 10). -/
def recA : VectorRecord := { id := 1, content := "first", embedding := [9], metadata := [] }

/-- Stored record at distance 1 from the fixture query, inserted second. -/
def recB : VectorRecord := { id := 2, content := "second", embedding := [1], metadata := [] }

/-- Stored record at distance 5 from the fixture query, inserted third. -/
def recC : VectorRecord := { id := 3, content := "third", embedding := [5], metadata := [] }

/-- A connected store holding recA, recB, recC in insertion order. -/
def vdb3 : VectorDB := { connected := true, dimension := 1, next_id := 4, records := [recA, recB, recC] }

/-- Fixture distance operator for witnesses: the first coordinate of the
stored embedding (so the fixture records above sit at 9, 1, 5). -/
def headDist (q e : List ℚ) : ℚ := e.headD 0

/-- Record at distance 7, inserted first — tied with recTieB. -/
def recTieA : VectorRecord :=
  { id := 1, content := "tie first", embedding := [7], metadata := [] }

/-- Record at distance 7, inserted second — tied with recTieA. -/
def recTieB : VectorRecord :=
  { id := 2, content := "tie second", embedding := [7], metadata := [] }

/-- A connected store holding the two tied records in insertion order. -/
def vdbTie : VectorDB :=
  { connected := true, dimension := 1, next_id := 3, records := [recTieA, recTieB] }

/-- An ORDER BY execution PostgreSQL is free to use: sort the reversed row
list (stably).  It satisfies the ORDER BY contract, yet returns
equal-distance rows in reverse insertion order. -/
def revEngine (rows : List (VectorRecord × ℚ)) : List (VectorRecord × ℚ) :=
  rows.reverse.insertionSort rowLE

/-- The reversing engine satisfies everything the SQL query asks of the
database: its output is a permutation of the rows, sorted by distance. -/
theorem revEngine_contract : order_by_contract revEngine := by
  intro rows
  constructor
  · exact (List.perm_insertionSort rowLE rows.reverse).trans (List.reverse_perm rows)
  · exact List.sorted_insertionSort rowLE rows.reverse

/-- C7 counterexample: the query orders by distance alone, with no secondary
sort key, so a contract-satisfying ORDER BY execution may return tied rows
in reverse insertion order: on a store whose two records are both at
distance 7, the scanned rows are in insertion order but search returns
"tie second" before "tie first" — the tie is not broken by insertion
order. -/
theorem c7_counterexample :
    order_by_contract revEngine ∧
    searchRows vdbTie headDist (get_embedding vdbTie (Except.ok [0])) =
      [(recTieA, (7 : ℚ)), (recTieB, (7 : ℚ))] ∧
    VectorDB.search vdbTie (Except.ok [0]) headDist revEngine 2 =
      [{ content := "tie second", metadata := [], distance := 7 },
       { content := "tie first", metadata := [], distance := 7 }] :=
  ⟨revEngine_contract, by decide, by decide⟩

/-- C7 amended: for every database execution of ORDER BY distance that
meets the SQL contract (a distance-sorted permutation of the scanned rows —
tie order unspecified), `VectorDB.search` returns at most n hits, at most
as many hits as there are stored records, and the hits in ascending order
of distance.  No tie-break by insertion order is guaranteed. -/
theorem c7_search_sorted (db : VectorDB) (query_service : Except String (List ℚ))
    (d : List ℚ → List ℚ → ℚ)
    (engine : List (VectorRecord × ℚ) → List (VectorRecord × ℚ)) (n : Nat)
    (h : order_by_contract engine) :
    (db.search query_service d engine n).length ≤ n ∧
    (db.search query_service d engine n).length ≤ db.records.length ∧
    List.Sorted (fun a b => a.distance ≤ b.distance)
      (db.search query_service d engine n) := by
  obtain ⟨hperm, hsorted⟩ := h (searchRows db d (get_embedding db query_service))
  refine ⟨?_, ?_, ?_⟩
  · unfold VectorDB.search
    split
    · simp
    · simp [List.length_take]
  · unfold VectorDB.search
    split
    · simp
    · have hlen : (engine (searchRows db d (get_embedding db query_service))).length =
          db.records.length := by
        rw [hperm.length_eq]
        simp [searchRows]
      simp only [List.length_map, List.length_take]
      rw [hlen]
      omega
  · unfold VectorDB.search
    split
    · simp
    · exact List.pairwise_map.mpr (hsorted.sublist (List.take_sublist n _))

/-- C7 witness: concrete instance of the amended claim on the fixture store
(distances 9, 1, 5) under the reversing engine, which satisfies the ORDER
BY contract. -/
theorem c7_witness :
    order_by_contract revEngine ∧
    (VectorDB.search vdb3 (Except.ok [0]) headDist revEngine 2).length ≤ 2 ∧
    List.Sorted (fun a b => a.distance ≤ b.distance)
      (VectorDB.search vdb3 (Except.ok [0]) headDist revEngine 2) :=
  ⟨revEngine_contract,
   (c7_search_sorted vdb3 (Except.ok [0]) headDist revEngine 2 revEngine_contract).1,
   (c7_search_sorted vdb3 (Except.ok [0]) headDist revEngine 2 revEngine_contract).2.2⟩

/-! ## Claim C8 -/

/-- C8 failing input: `get_recent` embeds the Python slice
short_term_memory[-n:], and at n = 0 the slice [-0:] is [0:], the whole
buffer: on a buffer of three items, recent(0) returns all three items, not
zero items as documented. -/
theorem c8_get_recent_zero :
    Memory.get_recent mem3 0 = [item1, item2, item3] ∧
    (Memory.get_recent mem3 0).length = 3 := by
  decide

/-! ## Claim C9 -/

/-- C9 counterexample: `add_task` has no duplicate-id check — resubmitting
taskA appends a second copy and raises nothing, so the task set changes. -/
theorem c9_counterexample :
    add_task [taskA] taskA = [taskA, taskA] ∧ add_task [taskA] taskA ≠ [taskA] := by
  decide

/-- C9 amended: submitting a task whose id is already present does not fail
and does not leave the task set unchanged: `add_task` appends
unconditionally, so the list grows by one and now differs from before. -/
theorem c9_add_task_duplicate (tasks : List Task) (task : Task)
    (h : ∃ t ∈ tasks, t.id = task.id) :
    add_task tasks task = tasks ++ [task] ∧
    (add_task tasks task).length = tasks.length + 1 ∧
    add_task tasks task ≠ tasks := by
  refine ⟨rfl, by simp [add_task], fun heq => ?_⟩
  have hlen := congrArg List.length heq
  simp [add_task] at hlen

/-- C9 witness: concrete instance of the amended claim — resubmitting taskA
changes the task set. -/
theorem c9_witness :
    (∃ t ∈ [taskA], t.id = taskA.id) ∧ add_task [taskA] taskA ≠ [taskA] :=
  ⟨⟨taskA, by decide, rfl⟩,
    (c9_add_task_duplicate [taskA] taskA ⟨taskA, by decide, rfl⟩).2.2⟩

/-! ## Claims C5 and C6 -/

/-- Structural induction over thought-atom trees with the inductive
hypothesis available for every child. -/
theorem ThoughtAtom.ind {motive : ThoughtAtom → Prop}
    (h : ∀ c l m cs, (∀ x, x ∈ cs → motive x) → motive (.mk c l m cs)) :
    ∀ t, motive t
  | .mk c l m cs => h c l m cs (fun x hx => ThoughtAtom.ind h x)
decreasing_by
  have := List.sizeOf_lt_of_mem hx
  simp at *
  omega

/-- Unfolding of `to_dict` on a constructor: children map through
`to_dict`. -/
theorem ThoughtAtom.to_dict_mk (c : String) (l : Nat)
    (m : List (String × String)) (cs : List ThoughtAtom) :
    (ThoughtAtom.mk c l m cs).to_dict =
      TreeDict.mk c l m (cs.map ThoughtAtom.to_dict) := by
  rw [ThoughtAtom.to_dict]
  congr 1
  rw [← List.attach_map_subtype_val cs, List.map_map]
  simp [List.attach_map_subtype_val]

/-- Unfolding of `from_dict` on a constructor: the Python for-loop is a
left fold of `add_child` over the serialized children. -/
theorem ThoughtAtom.from_dict_mk (c : String) (l : Nat)
    (m : List (String × String)) (cs : List TreeDict) :
    ThoughtAtom.from_dict (TreeDict.mk c l m cs) =
      cs.foldl (fun atom d => atom.add_child (ThoughtAtom.from_dict d))
        (ThoughtAtom.mk c l m []) := by
  rw [ThoughtAtom.from_dict]
  exact List.foldl_attach cs (fun atom d => atom.add_child (ThoughtAtom.from_dict d))
    (ThoughtAtom.mk c l m [])

/-- Folding `add_child` over deserialized children appends them with their
level overwritten to parent level + 1 (and only their own level: `add_child`
never touches levels deeper in the attached subtree). -/
theorem from_dict_foldl (ds : List TreeDict) (c : String) (l : Nat)
    (m : List (String × String)) (ch : List ThoughtAtom) :
    ds.foldl (fun atom d => atom.add_child (ThoughtAtom.from_dict d))
      (ThoughtAtom.mk c l m ch) =
      ThoughtAtom.mk c l m
        (ch ++ ds.map (fun d => (ThoughtAtom.from_dict d).set_level (l + 1))) := by
  induction ds generalizing ch with
  | nil => simp
  | cons d ds ih =>
      rw [List.foldl_cons]
      have hstep : (ThoughtAtom.mk c l m ch).add_child (ThoughtAtom.from_dict d) =
          ThoughtAtom.mk c l m (ch ++ [(ThoughtAtom.from_dict d).set_level (l + 1)]) := rfl
      rw [hstep, ih]
      simp

/-- Characterization of the well-formedness check on a constructor. -/
theorem ThoughtAtom.wf_levels_mk (c : String) (l : Nat)
    (m : List (String × String)) (cs : List ThoughtAtom) :
    (ThoughtAtom.mk c l m cs).wf_levels = true ↔
      ∀ x ∈ cs, x.level = l + 1 ∧ x.wf_levels = true := by
  rw [ThoughtAtom.wf_levels]
  simp [List.all_eq_true]

/-- Overwriting a node's level with its own level is the identity. -/
theorem ThoughtAtom.set_level_self (t : ThoughtAtom) : t.set_level t.level = t := by
  cases t
  rfl

/-- C5: on every tree satisfying the ContextNode level invariant (each
child's level is its parent's level plus one), serialize→deserialize is the
identity: content, levels, metadata and child order are all reproduced. -/
theorem c5_roundtrip (t : ThoughtAtom) (h : t.wf_levels = true) :
    ThoughtAtom.from_dict t.to_dict = t := by
  induction t using ThoughtAtom.ind with
  | _ c l m cs ih =>
      rw [ThoughtAtom.to_dict_mk, ThoughtAtom.from_dict_mk, from_dict_foldl]
      rw [ThoughtAtom.wf_levels_mk] at h
      simp only [List.nil_append, List.map_map]
      congr 1
      have hmap : ∀ x ∈ cs,
          ((fun d => (ThoughtAtom.from_dict d).set_level (l + 1)) ∘ ThoughtAtom.to_dict) x
            = x := by
        intro x hx
        obtain ⟨hl, hw⟩ := h x hx
        simp only [Function.comp_apply]
        rw [ih x hx hw, ← hl, ThoughtAtom.set_level_self]
      rw [List.map_congr_left hmap]
      simp

/-- Two-level fixture tree satisfying the level invariant. -/
def sampleTree : ThoughtAtom :=
  ThoughtAtom.mk "root" 0 [("k", "v")]
    [ThoughtAtom.mk "alpha" 1 [] [ThoughtAtom.mk "beta" 2 [] []],
     ThoughtAtom.mk "gamma" 1 [("x", "y")] []]

/-- C5 witness: the fixture tree is well-formed and round-trips to itself. -/
theorem c5_witness :
    sampleTree.wf_levels = true ∧
    ThoughtAtom.from_dict sampleTree.to_dict = sampleTree := by
  have hw : sampleTree.wf_levels = true := by
    simp [sampleTree, ThoughtAtom.wf_levels_mk, ThoughtAtom.level]
  exact ⟨hw, c5_roundtrip sampleTree hw⟩

/-- C6: `summarize` on a childless node returns the node's content
unchanged and makes zero calls to the generation service, whatever that
service would return. -/
theorem c6_summarize_leaf (gen : String → String) (c : String) (l : Nat)
    (m : List (String × String)) :
    ThoughtAtom.summarize gen (ThoughtAtom.mk c l m []) = (c, 0) := by
  rw [ThoughtAtom.summarize]

/-! ## Claim C10 -/

/-- Characterization of monitor_progress as a record value. -/
theorem monitor_progress_eq (tasks : List Task) :
    monitor_progress tasks =
      { total := tasks.length
        completed := (get_completed_tasks tasks).length
        pending := tasks.length - (get_completed_tasks tasks).length
        progress_percentage :=
          if tasks.length > 0
          then ((get_completed_tasks tasks).length : ℚ) / (tasks.length : ℚ) * 100
          else 0 } := rfl

/-- C10: `monitor_progress` is total (the embedding is a total function);
it reports the task count as total, the completed count never exceeding it,
pending as the exact difference (pending + completed = total), and on an
empty task list it returns the all-zero snapshot — progress_percentage 0
instead of dividing by zero. -/
theorem c10_monitor_progress (tasks : List Task) :
    (monitor_progress tasks).total = tasks.length ∧
    (monitor_progress tasks).completed ≤ (monitor_progress tasks).total ∧
    (monitor_progress tasks).pending + (monitor_progress tasks).completed =
      (monitor_progress tasks).total ∧
    (tasks = [] → monitor_progress tasks = ⟨0, 0, 0, 0⟩) := by
  have hle : (get_completed_tasks tasks).length ≤ tasks.length :=
    List.length_filter_le _ _
  refine ⟨rfl, hle, ?_, fun h => by subst h; rfl⟩
  rw [monitor_progress_eq]
  simp only
  omega

/-- C10 witness: concrete instance on the empty task list. -/
theorem c10_witness :
    monitor_progress ([] : List Task) = ⟨0, 0, 0, 0⟩ ∧
    (monitor_progress ([] : List Task)).progress_percentage = 0 :=
  ⟨(c10_monitor_progress []).2.2.2 rfl, by decide⟩

end NovelAgent
